import Mathlib

/-!
Verification development for the ChalkOps backend core: the tenant-isolated
secrets and encryption-key lifecycle manager (SecurityService), the pluggable
secrets provider and its factory (SecretsServiceFactory / VaultSecretsProvider),
and the abuse guard (IpBlacklistService) over the cache abstraction
(CacheService / MemoryCacheService).

The TypeScript sources are embedded shallowly: asynchronous methods become pure
functions, mutable stores become explicit state values threaded through the
operations, thrown exceptions become Except values carrying the thrown message,
and JavaScript truthiness tests on strings / numbers / optional values are
modelled explicitly.  Timestamps (Date values) are epoch milliseconds.
-/

deriving instance DecidableEq for Except

namespace ChalkOps

/-- JavaScript truthiness of an optional string: null/undefined and the empty
string are falsy. -/
def jsTruthyOptStr (o : Option String) : Bool :=
  match o with
  | some s => s != ""
  | none => false

/-- Value of a decimal-digit character. -/
def digitVal (c : Char) : Nat := c.toNat - '0'.toNat

/-- Accumulating decimal parse of a list of characters, stopping at the first
non-digit. -/
def parseDigits : Nat → List Char → Nat
  | acc, [] => acc
  | acc, c :: cs => if c.isDigit then parseDigits (acc * 10 + digitVal c) cs else acc

/-- Model of JavaScript parseInt(s, 10) on the decimal-numeral strings produced
by this code base (counter values and epoch-millisecond timestamps): the value
of the longest leading run of decimal digits, 0 when there is none.  The NaN
result for non-numeric input is not modelled; no operation embedded here feeds
parseInt a non-numeral it then branches on. -/
def jsParseInt10 (s : String) : Nat := parseDigits 0 s.data

/-- Hexadecimal digit as matched by the pattern 0-9a-fA-F (the /i flag of the
source regex makes both letter cases acceptable). -/
def isHexDigit (c : Char) : Bool :=
  ('0' ≤ c && c ≤ '9') || ('a' ≤ c && c ≤ 'f') || ('A' ≤ c && c ≤ 'F')

namespace UUID7

/-- UUID7.isValid of src/src/shared/uuid/uuid7.class.ts: the regex
matching 8 hex digits, a dash, 4 hex digits, a dash, the literal 7 followed by
3 hex digits, a dash, one of 89abAB followed by 3 hex digits, a dash, and 12
hex digits, anchored at both ends. -/
def isValid (s : String) : Bool :=
  match s.data with
  | a1 :: a2 :: a3 :: a4 :: a5 :: a6 :: a7 :: a8 :: h1 ::
    b1 :: b2 :: b3 :: b4 :: h2 ::
    v :: c1 :: c2 :: c3 :: h3 ::
    w :: d1 :: d2 :: d3 :: h4 ::
    e1 :: e2 :: e3 :: e4 :: e5 :: e6 :: e7 :: e8 :: e9 :: e10 :: e11 :: e12 :: [] =>
    [a1, a2, a3, a4, a5, a6, a7, a8, b1, b2, b3, b4, c1, c2, c3,
     d1, d2, d3, e1, e2, e3, e4, e5, e6, e7, e8, e9, e10, e11, e12].all isHexDigit
    && h1 == '-' && h2 == '-' && h3 == '-' && h4 == '-'
    && v == '7'
    && (w == '8' || w == '9' || w == 'a' || w == 'b' || w == 'A' || w == 'B')
  | _ => false

end UUID7

/-- KeyStatus enum of src/src/shared/types/enums/secrets.types.ts. -/
inductive KeyStatus
  | ACTIVE
  | ROTATING
  | ARCHIVED
  | EXPIRED
deriving DecidableEq, Repr

/-- ProviderStatus enum of src/src/shared/types/enums/secrets.types.ts. -/
inductive ProviderStatus
  | HEALTHY
  | UNHEALTHY
  | CONNECTING
  | DISCONNECTED
deriving DecidableEq, Repr

/-- SecretsProviderType enum of src/src/shared/types/enums/secrets.types.ts. -/
inductive SecretsProviderType
  | VAULT
  | AWS_SECRETS_MANAGER
  | AZURE_KEY_VAULT
  | GCP_SECRET_MANAGER
  | LOCAL
deriving DecidableEq, Repr

/-- EncryptedData as produced by the provider encrypt operation. -/
structure EncryptedData where
  ciphertext : String
  iv : Option String
  algorithm : String
  keyId : String
deriving DecidableEq, Repr

/-- SecretMetadata attached to every stored secret record. -/
structure SecretMetadata where
  id : String
  name : String
  path : String
  size : Nat
  createdAt : Nat
  updatedAt : Nat
  expiresAt : Option Nat
  tags : Option (List (String × String))
deriving DecidableEq, Repr

/-- SecretData: the record written to / read from the secret store.  Exactly
one of value or encryptedData is populated by the engine. -/
structure SecretData where
  value : Option String
  encryptedData : Option EncryptedData
  metadata : SecretMetadata
deriving DecidableEq, Repr

/-- KeyInfo: the provider-level description of an encryption key. -/
structure KeyInfo where
  id : String
  algorithm : String
  keySize : Nat
  status : KeyStatus
  createdAt : Nat
  expiresAt : Option Nat
  rotationDate : Option Nat
  archivedAt : Option Nat
deriving DecidableEq, Repr

/-- EncryptionKey: the engine-level description of an encryption key
(security.interfaces.ts). -/
structure EncryptionKey where
  id : String
  tenantId : String
  keyId : String
  status : KeyStatus
  algorithm : String
  keySize : Nat
  createdAt : Nat
  expiresAt : Option Nat
  rotationDate : Option Nat
  archivedAt : Option Nat
deriving DecidableEq, Repr

/-- Tenant-namespaced path triple returned by getTenantPaths. -/
structure TenantPaths where
  secrets : String
  encryptionKeys : String
  keyRotation : String
deriving DecidableEq, Repr

/-- VaultSecretMetadata as returned to engine callers. -/
structure VaultSecretMetadata where
  id : String
  tenantId : String
  name : String
  size : Nat
  createdAt : Nat
  updatedAt : Nat
  expiresAt : Option Nat
  tags : Option (List (String × String))
deriving DecidableEq, Repr

/-- SecretResponse returned by the engine secret operations. -/
structure SecretResponse where
  id : String
  tenantId : String
  name : String
  value : Option String
  encryptedData : Option String
  keyId : Option String
  algorithm : Option String
  iv : Option String
  metadata : VaultSecretMetadata
deriving DecidableEq, Repr

/-- KeyRotationResponse returned by rotateKeys. -/
structure KeyRotationResponse where
  oldKeyId : String
  newKeyId : String
  rotationDate : Nat
  archivedKeys : List EncryptionKey
deriving DecidableEq, Repr

/-- SecretListResponse returned by listSecrets. -/
structure SecretListResponse where
  tenantId : String
  secrets : List VaultSecretMetadata
  totalCount : Nat
deriving DecidableEq, Repr

/-- KeyListResponse returned by listKeys. -/
structure KeyListResponse where
  tenantId : String
  keys : List EncryptionKey
  activeKeyId : String
  totalCount : Nat
deriving DecidableEq, Repr

/-- Vault connection configuration (url, token, namespace). -/
structure VaultConfig where
  url : String
  token : Option String
  vaultNamespace : Option String
deriving DecidableEq, Repr

/-- The observable state of a constructed VaultSecretsProvider. -/
structure VaultProviderInstance where
  isInitialized : Bool
  status : ProviderStatus
  config : VaultConfig
deriving DecidableEq, Repr

/-- Remove the first occurrence of pat from a character list; the remainder of
the list is kept unchanged.  This is JavaScript
String.prototype.replace(pat, two-quote empty string) with a string pattern,
which replaces only the first occurrence. -/
def removeFirstOcc (pat : List Char) : List Char → List Char
  | [] => []
  | c :: cs =>
    if pat.isPrefixOf (c :: cs) then (c :: cs).drop pat.length
    else c :: removeFirstOcc pat cs

/-- JavaScript s.replace(pat, empty string) for a string pattern: removes the
first occurrence of pat in s, or returns s unchanged when pat does not occur. -/
def jsReplaceFirst (s pat : String) : String :=
  String.mk (removeFirstOcc pat.data s.data)

namespace VaultSecretsProvider

/-- VaultSecretsProvider.isReady: initialized and HEALTHY. -/
def isReady (p : VaultProviderInstance) : Bool :=
  p.isInitialized && p.status == ProviderStatus.HEALTHY

/-- VaultSecretsProvider constructor followed by initialize(): authentication
requires a truthy token (authenticateWithToken throws when the token is
absent or empty, and the error is wrapped by authenticate and then by
initialize); with a token present, the placeholder client health check never
throws and initialize marks the provider initialized and HEALTHY. -/
def initializeVault (cfg : VaultConfig) : Except String VaultProviderInstance :=
  if jsTruthyOptStr cfg.token then
    Except.ok { isInitialized := true, status := ProviderStatus.HEALTHY, config := cfg }
  else
    Except.error "Vault initialization failed: Vault authentication failed: Vault token not provided"

/-- VaultSecretsProvider.encrypt: when ready, returns the placeholder
transit encryption, prefixing the data with the marker string; otherwise
throws through the provider-not-ready guard (wrapped by the catch). -/
def encrypt (p : VaultProviderInstance) (data keyId : String) : Except String EncryptedData :=
  if isReady p then
    Except.ok
      { ciphertext := "encrypted_" ++ data
        iv := some "placeholder_iv"
        algorithm := "aes256-gcm96"
        keyId := keyId }
  else
    Except.error "Vault encryption failed: Vault provider not ready"

/-- VaultSecretsProvider.decrypt: when ready, returns
ciphertext.replace(marker, empty string), i.e. the ciphertext with the first
occurrence of the marker removed; otherwise throws through the
provider-not-ready guard. -/
def decrypt (p : VaultProviderInstance) (ed : EncryptedData) : Except String String :=
  if isReady p then
    Except.ok (jsReplaceFirst ed.ciphertext "encrypted_")
  else
    Except.error "Vault decryption failed: Vault provider not ready"

/-- VaultSecretsProvider.getTenantPaths: the tenant-namespaced path triple. -/
def getTenantPaths (tenantId : String) : TenantPaths :=
  { secrets := "secret/data/tenants/" ++ tenantId ++ "/secrets"
    encryptionKeys := "transit/keys/tenants/" ++ tenantId
    keyRotation := "transit/keys/tenants/" ++ tenantId ++ "/rotation" }

end VaultSecretsProvider

/-- The Object.values order of the SecretsProviderType enum. -/
def secretsProviderTypeValues : List String := ["vault", "aws", "azure", "gcp", "local"]

/-- Enum member for one of the five recognized selector strings (only applied
after membership in secretsProviderTypeValues has been checked). -/
def secretsProviderTypeOf (s : String) : SecretsProviderType :=
  if s = "aws" then SecretsProviderType.AWS_SECRETS_MANAGER
  else if s = "azure" then SecretsProviderType.AZURE_KEY_VAULT
  else if s = "gcp" then SecretsProviderType.GCP_SECRET_MANAGER
  else if s = "local" then SecretsProviderType.LOCAL
  else SecretsProviderType.VAULT

namespace SecretsServiceFactory

/-- SecretsServiceFactory.getProviderTypeFromConfig: reads the
SECRETS_PROVIDER environment value; if it is truthy and one of the enum
values, that type is used, otherwise the selector defaults to VAULT. -/
def getProviderTypeFromConfig (env : Option String) : SecretsProviderType :=
  match env with
  | some s =>
    if s != "" && secretsProviderTypeValues.contains s then secretsProviderTypeOf s
    else SecretsProviderType.VAULT
  | none => SecretsProviderType.VAULT

/-- SecretsServiceFactory.createProvider: switches on the configured provider
type; VAULT constructs and initializes a VaultSecretsProvider, the four other
recognized types throw a not-implemented error from their TODO creators.  (The
default branch of the source switch is unreachable because
getProviderTypeFromConfig is total onto the enum.) -/
def createProvider (env : Option String) (cfg : VaultConfig) : Except String VaultProviderInstance :=
  match getProviderTypeFromConfig env with
  | SecretsProviderType.VAULT => VaultSecretsProvider.initializeVault cfg
  | SecretsProviderType.AWS_SECRETS_MANAGER =>
    Except.error "AWS Secrets Manager provider not implemented yet"
  | SecretsProviderType.AZURE_KEY_VAULT =>
    Except.error "Azure Key Vault provider not implemented yet"
  | SecretsProviderType.GCP_SECRET_MANAGER =>
    Except.error "GCP Secret Manager provider not implemented yet"
  | SecretsProviderType.LOCAL =>
    Except.error "Local secrets provider not implemented yet"

end SecretsServiceFactory

/-- The state of the secret-store backend the engine talks to through the
ISecretsProvider interface: the transit keys and the secret records stored at
tenant-namespaced paths. -/
structure ProviderState where
  keys : List KeyInfo
  secrets : List (String × SecretData)
deriving DecidableEq, Repr

namespace Provider

/-- Modelled from the spec: the networked secret-store backend behind the
provider key operations.  The in-repo VaultSecretsProvider methods are TODO
placeholders around Vault transit calls (its listKeys returns an empty list
and createKey/deleteKey do not touch the backend), so the backend key store is
modelled from the provider interface and spec section 4.1: createKey creates
and durably stores a key with the KeyInfo that VaultSecretsProvider.createKey
returns (status ACTIVE, algorithm aes256-gcm96, key size 256), listKeys lists
the stored keys, deleteKey deletes the key with the given id. -/
def createKey (s : ProviderState) (keyId : String) (now : Nat) : KeyInfo × ProviderState :=
  let key : KeyInfo :=
    { id := keyId
      algorithm := "aes256-gcm96"
      keySize := 256
      status := KeyStatus.ACTIVE
      createdAt := now
      expiresAt := none
      rotationDate := none
      archivedAt := none }
  (key, { s with keys := s.keys ++ [key] })

/-- Modelled from the spec: listKeys lists the keys stored in the backend
key store (the in-repo placeholder returns an empty list). -/
def listKeys (s : ProviderState) : List KeyInfo := s.keys

/-- Modelled from the spec: deleteKey removes the key with the given id from
the backend key store (the in-repo placeholder only logs). -/
def deleteKey (s : ProviderState) (keyId : String) : ProviderState :=
  { s with keys := s.keys.filter (fun k => k.id != keyId) }

/-- Modelled from the spec: setSecret writes the record at the given path in
the backend (the in-repo VaultSecretsProvider.setSecret forwards to a
placeholder client). -/
def setSecret (s : ProviderState) (path : String) (data : SecretData) : ProviderState :=
  { s with secrets := (path, data) :: s.secrets.filter (fun kv => kv.fst != path) }

/-- Modelled from the spec: getSecret reads the record at the given path; a
missing path surfaces as the VaultSecretsProvider not-found error, wrapped in
the provider failure message as in VaultSecretsProvider.getSecret. -/
def getSecret (s : ProviderState) (path : String) : Except String SecretData :=
  match (s.secrets.find? (fun kv => kv.fst == path)).map Prod.snd with
  | some d => Except.ok d
  | none => Except.error ("Vault get secret failed: Secret not found: " ++ path)

/-- Modelled from the spec: listSecrets at a path lists the metadata of the
records stored under that path, as VaultSecretsProvider.listSecrets does by
listing the child keys and reading each record's metadata. -/
def listSecretsAt (s : ProviderState) (path : String) : List SecretMetadata :=
  ((s.secrets.filter (fun kv => (path ++ "/").isPrefixOf kv.fst)).map Prod.snd).map
    SecretData.metadata

/-- Modelled from the spec: deleteSecret removes the record at the path. -/
def deleteSecretAt (s : ProviderState) (path : String) : ProviderState :=
  { s with secrets := s.secrets.filter (fun kv => kv.fst != path) }

/-- The provider encrypt transform of VaultSecretsProvider.encrypt, for the
initialized (ready) provider the engine is constructed with. -/
def encrypt (data keyId : String) : EncryptedData :=
  { ciphertext := "encrypted_" ++ data
    iv := some "placeholder_iv"
    algorithm := "aes256-gcm96"
    keyId := keyId }

/-- The provider decrypt transform of VaultSecretsProvider.decrypt, for the
initialized (ready) provider the engine is constructed with. -/
def decrypt (ed : EncryptedData) : String :=
  jsReplaceFirst ed.ciphertext "encrypted_"

end Provider

namespace SecurityService

/-- SecurityService.MAX_ARCHIVED_KEYS. -/
def MAX_ARCHIVED_KEYS : Nat := 3

/-- SecurityService.DEFAULT_ALGORITHM. -/
def DEFAULT_ALGORITHM : String := "aes256-gcm96"

/-- SecurityService.DEFAULT_KEY_SIZE. -/
def DEFAULT_KEY_SIZE : Nat := 256

/-- SecurityService.validateUUID7: throws when UUID7.isValid rejects the
string. -/
def validateUUID7 (uuid : String) : Except String Unit :=
  if UUID7.isValid uuid then Except.ok ()
  else Except.error ("Invalid UUID v7 format: " ++ uuid)

/-- SecurityService.convertToVaultMetadata: note the source sets the tenantId
field from metadata.id (with the comment "Using metadata.id as tenantId for
now"). -/
def convertToVaultMetadata (m : SecretMetadata) : VaultSecretMetadata :=
  { id := m.id
    tenantId := m.id
    name := m.name
    size := m.size
    createdAt := m.createdAt
    updatedAt := m.updatedAt
    expiresAt := m.expiresAt
    tags := m.tags }

/-- SecurityService.convertToEncryptionKey: lifts provider KeyInfo to the
engine EncryptionKey; tenantId is left empty ("Will be set by caller"). -/
def convertToEncryptionKey (k : KeyInfo) : EncryptionKey :=
  { id := k.id
    tenantId := ""
    keyId := k.id
    status := k.status
    algorithm := k.algorithm
    keySize := k.keySize
    createdAt := k.createdAt
    expiresAt := k.expiresAt
    rotationDate := k.rotationDate
    archivedAt := k.archivedAt }

/-- SecurityService.getAllKeys: derives the tenant paths (unused by the rest
of the body, as in the source) and converts every key of provider listKeys;
the listKeys call carries no tenant filter. -/
def getAllKeys (s : ProviderState) (tenantId : String) : List EncryptionKey :=
  let _paths := VaultSecretsProvider.getTenantPaths tenantId
  (Provider.listKeys s).map convertToEncryptionKey

/-- SecurityService.getActiveKey: first key with status ACTIVE, or none. -/
def getActiveKey (s : ProviderState) (tenantId : String) : Option EncryptionKey :=
  (getAllKeys s tenantId).find? (fun k => k.status == KeyStatus.ACTIVE)

/-- SecurityService.getArchivedKeys: keys with status ARCHIVED. -/
def getArchivedKeys (s : ProviderState) (tenantId : String) : List EncryptionKey :=
  (getAllKeys s tenantId).filter (fun k => k.status == KeyStatus.ARCHIVED)

/-- SecurityService.createEncryptionKey: builds the engine EncryptionKey with
status ACTIVE and calls provider createKey; the generated UUID v7 key id is
passed in as keyId. -/
def createEncryptionKey (s : ProviderState) (tenantId keyId : String) (now : Nat) :
    EncryptionKey × ProviderState :=
  let key : EncryptionKey :=
    { id := keyId
      tenantId := tenantId
      keyId := keyId
      status := KeyStatus.ACTIVE
      algorithm := DEFAULT_ALGORITHM
      keySize := DEFAULT_KEY_SIZE
      createdAt := now
      expiresAt := none
      rotationDate := none
      archivedAt := none }
  let (_, s1) := Provider.createKey s keyId now
  (key, s1)

/-- SecurityService.ensureActiveKey: the tenant's ACTIVE key, creating one
when none exists. -/
def ensureActiveKey (s : ProviderState) (tenantId keyId : String) (now : Nat) :
    EncryptionKey × ProviderState :=
  match getActiveKey s tenantId with
  | some k => (k, s)
  | none => createEncryptionKey s tenantId keyId now

/-- Sort key used by cleanupArchivedKeys: the archivedAt timestamp in epoch
milliseconds.  The source comparator reads new Date(a.archivedAt!).getTime();
a missing archivedAt (NaN comparator result) is not modelled and theorems
about the cleanup require archivedAt to be present, as the data model states
for archived keys. -/
def archivedAtMs (k : EncryptionKey) : Nat := k.archivedAt.getD 0

/-- Comparator of the archived-key sort: ascending archivedAt. -/
def keyAgeLe (a b : EncryptionKey) : Prop := archivedAtMs a ≤ archivedAtMs b

instance : DecidableRel keyAgeLe := fun a b => Nat.decLe (archivedAtMs a) (archivedAtMs b)

instance : IsTotal EncryptionKey keyAgeLe := ⟨fun a b => Nat.le_total (archivedAtMs a) (archivedAtMs b)⟩

instance : IsTrans EncryptionKey keyAgeLe := ⟨fun _ _ _ => Nat.le_trans⟩

/-- The keysToRemove computation of SecurityService.cleanupArchivedKeys: when
the archived keys exceed MAX_ARCHIVED_KEYS, sort by archivedAt ascending (the
source uses the stable Array.prototype.sort) and take the oldest
(length - MAX_ARCHIVED_KEYS) of them; otherwise nothing is removed. -/
def keysToRemove (archivedKeys : List EncryptionKey) : List EncryptionKey :=
  if archivedKeys.length > MAX_ARCHIVED_KEYS then
    let sortedKeys := List.insertionSort keyAgeLe archivedKeys
    sortedKeys.take (archivedKeys.length - MAX_ARCHIVED_KEYS)
  else []

/-- SecurityService.cleanupArchivedKeys: deletes the computed keysToRemove
oldest-first through provider deleteKey. -/
def cleanupArchivedKeys (s : ProviderState) (tenantId : String) : ProviderState :=
  let archivedKeys := getArchivedKeys s tenantId
  (keysToRemove archivedKeys).foldl (fun st k => Provider.deleteKey st k.keyId) s

/-- SecurityService.archiveKey: the body is a TODO stub ("TODO: Implement key
archiving with the secrets provider") that only logs and then runs
cleanupArchivedKeys; no key status is changed. -/
def archiveKey (s : ProviderState) (tenantId _keyId : String) : ProviderState :=
  cleanupArchivedKeys s tenantId

/-- SecurityService.rotateKeys: without an active key and without force,
throws (wrapped by the catch into the rotation-failed message) before any key
is created; otherwise creates the new key, then archives the old key when one
existed and reports the archived keys.  The generated UUID v7 id for the new
key is passed in as newKeyId.  Note rotateKeys performs no validateUUID7 call
on request.tenantId. -/
def rotateKeys (s : ProviderState) (tenantId : String) (force : Bool) (newKeyId : String)
    (now : Nat) : Except String KeyRotationResponse × ProviderState :=
  match getActiveKey s tenantId with
  | none =>
    if !force then
      (Except.error "Key rotation failed: No active key found for rotation", s)
    else
      let (newKey, s1) := createEncryptionKey s tenantId newKeyId now
      (Except.ok
        { oldKeyId := ""
          newKeyId := newKey.keyId
          rotationDate := now
          archivedKeys := [] }, s1)
  | some activeKey =>
    let (newKey, s1) := createEncryptionKey s tenantId newKeyId now
    let s2 := archiveKey s1 tenantId activeKey.keyId
    let archivedKeys := getArchivedKeys s2 tenantId
    (Except.ok
      { oldKeyId := activeKey.keyId
        newKeyId := newKey.keyId
        rotationDate := now
        archivedKeys := archivedKeys }, s2)

/-- SecurityService.storeSecret: validates the tenant id, then writes the
plaintext record at the fresh tenant-scoped path and answers with the
response built from convertToVaultMetadata.  The generated UUID v7 record id
is passed in as secretId. -/
def storeSecret (s : ProviderState) (tenantId name value secretId : String) (now : Nat)
    (expiresAt : Option Nat) (tags : Option (List (String × String))) :
    Except String SecretResponse × ProviderState :=
  match validateUUID7 tenantId with
  | Except.error e => (Except.error e, s)
  | Except.ok _ =>
    let paths := VaultSecretsProvider.getTenantPaths tenantId
    let path := paths.secrets ++ "/" ++ secretId
    let metadata : SecretMetadata :=
      { id := secretId
        name := name
        path := path
        size := value.length
        createdAt := now
        updatedAt := now
        expiresAt := expiresAt
        tags := tags }
    let secretData : SecretData :=
      { value := some value, encryptedData := none, metadata := metadata }
    let s1 := Provider.setSecret s path secretData
    (Except.ok
      { id := secretId
        tenantId := tenantId
        name := name
        value := some value
        encryptedData := none
        keyId := none
        algorithm := none
        iv := none
        metadata := convertToVaultMetadata metadata }, s1)

/-- SecurityService.encryptAndStoreSecret: validates the tenant id, obtains
the active key via ensureActiveKey (creating one with the generated id keyId
when none exists), encrypts through the provider and stores the encrypted
record at the fresh tenant-scoped path. -/
def encryptAndStoreSecret (s : ProviderState) (tenantId name value secretId keyId : String)
    (now : Nat) (expiresAt : Option Nat) (tags : Option (List (String × String))) :
    Except String SecretResponse × ProviderState :=
  match validateUUID7 tenantId with
  | Except.error e => (Except.error e, s)
  | Except.ok _ =>
    let paths := VaultSecretsProvider.getTenantPaths tenantId
    let (activeKey, s1) := ensureActiveKey s tenantId keyId now
    let encryptedData := Provider.encrypt value activeKey.keyId
    let path := paths.secrets ++ "/" ++ secretId
    let metadata : SecretMetadata :=
      { id := secretId
        name := name
        path := path
        size := value.length
        createdAt := now
        updatedAt := now
        expiresAt := expiresAt
        tags := tags }
    let secretData : SecretData :=
      { value := none, encryptedData := some encryptedData, metadata := metadata }
    let s2 := Provider.setSecret s1 path secretData
    (Except.ok
      { id := secretId
        tenantId := tenantId
        name := name
        value := none
        encryptedData := some encryptedData.ciphertext
        keyId := some activeKey.keyId
        algorithm := some encryptedData.algorithm
        iv := some (encryptedData.iv.getD "")
        metadata := convertToVaultMetadata metadata }, s2)

/-- SecurityService.getSecret: validates the tenant id, reads the record at
the tenant-scoped path and answers the plaintext branch when the record's
value is truthy (a JavaScript check: the empty string is falsy), the
encrypted branch when encryptedData is present, and a not-found error
otherwise; every thrown error is wrapped in the retrieval-failed message by
the catch. -/
def getSecret (s : ProviderState) (tenantId secretId : String) :
    Except String SecretResponse :=
  match validateUUID7 tenantId with
  | Except.error e => Except.error ("Secret retrieval failed: " ++ e)
  | Except.ok _ =>
    let paths := VaultSecretsProvider.getTenantPaths tenantId
    let secretPath := paths.secrets ++ "/" ++ secretId
    match Provider.getSecret s secretPath with
    | Except.error e => Except.error ("Secret retrieval failed: " ++ e)
    | Except.ok secret =>
      if jsTruthyOptStr secret.value then
        Except.ok
          { id := secretId
            tenantId := tenantId
            name := secret.metadata.name
            value := secret.value
            encryptedData := none
            keyId := none
            algorithm := none
            iv := none
            metadata := convertToVaultMetadata secret.metadata }
      else
        match secret.encryptedData with
        | some ed =>
          Except.ok
            { id := secretId
              tenantId := tenantId
              name := secret.metadata.name
              value := none
              encryptedData := some ed.ciphertext
              keyId := some ed.keyId
              algorithm := some ed.algorithm
              iv := some (ed.iv.getD "")
              metadata := convertToVaultMetadata secret.metadata }
        | none => Except.error ("Secret retrieval failed: Secret not found: " ++ secretId)

/-- SecurityService.decryptSecret: validates the tenant id, resolves the
record via getSecret, returns a truthy plaintext value verbatim, and
otherwise decrypts through the provider with the keyId stored in the record
(the response's keyId), guarding that both encryptedData and keyId are
truthy; thrown errors are wrapped in the decryption-failed message. -/
def decryptSecret (s : ProviderState) (tenantId secretId : String) : Except String String :=
  match validateUUID7 tenantId with
  | Except.error e => Except.error ("Secret decryption failed: " ++ e)
  | Except.ok _ =>
    match getSecret s tenantId secretId with
    | Except.error e => Except.error ("Secret decryption failed: " ++ e)
    | Except.ok secret =>
      if jsTruthyOptStr secret.value then Except.ok (secret.value.getD "")
      else if !(jsTruthyOptStr secret.encryptedData) || !(jsTruthyOptStr secret.keyId) then
        Except.error "Secret decryption failed: Invalid encrypted secret data"
      else
        Except.ok (Provider.decrypt
          { ciphertext := (secret.encryptedData).getD ""
            keyId := (secret.keyId).getD ""
            algorithm := (secret.algorithm).getD ""
            iv := secret.iv })

/-- SecurityService.deleteSecret: validates the tenant id and deletes the
record at the tenant-scoped path; thrown errors are wrapped in the
deletion-failed message. -/
def deleteSecret (s : ProviderState) (tenantId secretId : String) :
    Except String Unit × ProviderState :=
  match validateUUID7 tenantId with
  | Except.error e => (Except.error ("Secret deletion failed: " ++ e), s)
  | Except.ok _ =>
    let paths := VaultSecretsProvider.getTenantPaths tenantId
    (Except.ok (), Provider.deleteSecretAt s (paths.secrets ++ "/" ++ secretId))

/-- SecurityService.listSecrets: validates the tenant id and lists the
metadata of the records under the tenant secrets path (never the secret
material); thrown errors are wrapped in the listing-failed message. -/
def listSecrets (s : ProviderState) (tenantId : String) : Except String SecretListResponse :=
  match validateUUID7 tenantId with
  | Except.error e => Except.error ("Secret listing failed: " ++ e)
  | Except.ok _ =>
    let paths := VaultSecretsProvider.getTenantPaths tenantId
    let secrets := (Provider.listSecretsAt s paths.secrets).map convertToVaultMetadata
    Except.ok { tenantId := tenantId, secrets := secrets, totalCount := secrets.length }

/-- SecurityService.listKeys: validates the tenant id and reports all keys
with the id of the first ACTIVE one (empty when none); thrown errors are
wrapped in the key-listing-failed message. -/
def listKeys (s : ProviderState) (tenantId : String) : Except String KeyListResponse :=
  match validateUUID7 tenantId with
  | Except.error e => Except.error ("Key listing failed: " ++ e)
  | Except.ok _ =>
    let keys := getAllKeys s tenantId
    let activeKey := keys.find? (fun k => k.status == KeyStatus.ACTIVE)
    Except.ok
      { tenantId := tenantId
        keys := keys
        activeKeyId := (activeKey.map EncryptionKey.keyId).getD ""
        totalCount := keys.length }

end SecurityService

/-- Cache configuration (the part the memory backend reads). -/
structure CacheConfig where
  keyPrefix : Option String
deriving DecidableEq, Repr

/-- An entry of the in-memory cache map: a value and an optional expiry in
epoch milliseconds. -/
structure MemEntry where
  value : String
  expiry : Option Int
deriving DecidableEq, Repr

/-- The MemoryCacheService backing map. -/
abbrev MemCache := List (String × MemEntry)

/-- Map lookup on the memory cache. -/
def memLookup (st : MemCache) (k : String) : Option MemEntry :=
  (st.find? (fun kv => kv.fst == k)).map Prod.snd

/-- Map insert/overwrite on the memory cache. -/
def memInsert (st : MemCache) (k : String) (e : MemEntry) : MemCache :=
  (k, e) :: st.filter (fun kv => kv.fst != k)

/-- Map delete on the memory cache. -/
def memDelete (st : MemCache) (k : String) : MemCache :=
  st.filter (fun kv => kv.fst != k)

/-- getFullKey of the cache backends: prepend the configured key prefix when
it is truthy. -/
def getFullKey (cfg : CacheConfig) (key : String) : String :=
  if jsTruthyOptStr cfg.keyPrefix then cfg.keyPrefix.getD "" ++ ":" ++ key else key

/-- The current || zero-string defaulting of MemoryCacheService.incr: null
and the empty string are replaced by the zero numeral. -/
def jsOrZeroNumeral (o : Option String) : String :=
  match o with
  | some s => if s != "" then s else "0"
  | none => "0"

namespace MemoryCacheService

/-- MemoryCacheService.get: prefix the key, look it up, and delete-and-miss
when the entry carries a truthy expiry in the past. -/
def get (cfg : CacheConfig) (st : MemCache) (key : String) (now : Int) :
    Option String × MemCache :=
  let fullKey := getFullKey cfg key
  match memLookup st fullKey with
  | none => (none, st)
  | some item =>
    match item.expiry with
    | some e => if e != 0 && now > e then (none, memDelete st fullKey) else (some item.value, st)
    | none => (some item.value, st)

/-- MemoryCacheService.set: prefix the key and store the value; the expiry is
set only for a truthy ttlSeconds (zero behaves like no TTL), and is cleared
when no ttlSeconds is passed. -/
def set (cfg : CacheConfig) (st : MemCache) (key value : String) (ttlSeconds : Option Int)
    (now : Int) : MemCache :=
  let fullKey := getFullKey cfg key
  let expiry : Option Int :=
    match ttlSeconds with
    | some t => if t != 0 then some (now + t * 1000) else none
    | none => none
  memInsert st fullKey { value := value, expiry := expiry }

/-- MemoryCacheService.setex: set with a TTL. -/
def setex (cfg : CacheConfig) (st : MemCache) (key : String) (ttlSeconds : Int)
    (value : String) (now : Int) : MemCache :=
  set cfg st key value (some ttlSeconds) now

/-- MemoryCacheService.del: prefix the key and delete it. -/
def del (cfg : CacheConfig) (st : MemCache) (key : String) : MemCache :=
  memDelete st (getFullKey cfg key)

/-- MemoryCacheService.incr: prefixes the key, then reads the current value
through this.get and writes the incremented numeral through this.set — both
of which prefix the already-prefixed key again — and stores the new value
with no TTL (the set call passes no ttlSeconds, so any existing expiry on
the entry is dropped). -/
def incr (cfg : CacheConfig) (st : MemCache) (key : String) (now : Int) : Nat × MemCache :=
  let fullKey := getFullKey cfg key
  let (current, st1) := get cfg st fullKey now
  let newValue := toString (jsParseInt10 (jsOrZeroNumeral current) + 1)
  let st2 := set cfg st1 fullKey newValue none now
  (jsParseInt10 newValue, st2)

/-- MemoryCacheService.expire: prefixes the key once and sets the expiry on
the entry when it exists (a direct map access, unlike incr). -/
def expire (cfg : CacheConfig) (st : MemCache) (key : String) (ttlSeconds : Int)
    (now : Int) : MemCache :=
  let fullKey := getFullKey cfg key
  match memLookup st fullKey with
  | some item => memInsert st fullKey { item with expiry := some (now + ttlSeconds * 1000) }
  | none => st

/-- MemoryCacheService.ttl: remaining whole seconds of a truthy expiry, -1
when the key is missing, has no truthy expiry, or has already run out. -/
def ttl (cfg : CacheConfig) (st : MemCache) (key : String) (now : Int) : Int :=
  let fullKey := getFullKey cfg key
  match memLookup st fullKey with
  | none => -1
  | some item =>
    match item.expiry with
    | none => -1
    | some e =>
      if e == 0 then -1
      else
        let remaining := Int.fdiv (e - now) 1000
        if remaining > 0 then remaining else -1

end MemoryCacheService

/-- Rate-limit result of IpBlacklistService.checkRateLimit. -/
structure RateLimitResult where
  allowed : Bool
  remaining : Int
  resetTime : Int
deriving DecidableEq, Repr

/-- The cache surface IpBlacklistService consumes (CacheService), with each
operation able to fail as the configured backend may; an operation's value is
the outcome of that backend call. -/
structure CacheOps where
  get : String → Except String (Option String)
  setex : String → Int → String → Except String Unit
  del : String → Except String Unit
  incr : String → Except String Nat
  expire : String → Int → Except String Unit
  ttl : String → Except String Int

/-- A durable ip_blacklist audit row. -/
structure IpBlacklistRow where
  ip_address : String
  blocked_until : Int
  reason : Option String
  blocked_by : Option String
deriving DecidableEq, Repr

/-- The durable-store surface IpBlacklistService consumes (the Prisma
ipBlacklist queries), with each operation able to fail. -/
structure DbOps where
  findFirstActive : String → Int → Except String (Option IpBlacklistRow)
  create : IpBlacklistRow → Except String Unit
  updateManyUnblock : String → Int → Option String → Except String Unit

namespace IpBlacklistService

/-- The try-block of IpBlacklistService.isIpBlacklisted: cache first (with
expired-entry cleanup), then the durable store filtered to open blocks, with
cache repopulation on a durable hit. -/
def isIpBlacklistedBody (cache : CacheOps) (db : DbOps) (ipAddress : String) (now : Int) :
    Except String Bool := do
  let cacheKey := "blacklist:" ++ ipAddress
  let blockedUntil ← cache.get cacheKey
  let earlyHit ←
    match blockedUntil with
    | some bu =>
      if bu != "" then
        if (jsParseInt10 bu : Int) > now then pure true
        else do
          let _ ← cache.del cacheKey
          pure false
      else pure false
    | none => pure false
  if earlyHit then pure true
  else do
    let dbRecord ← db.findFirstActive ipAddress now
    match dbRecord with
    | some r =>
      let ttlSeconds := Int.fdiv (r.blocked_until - now) 1000
      if ttlSeconds > 0 then do
        let _ ← cache.setex cacheKey ttlSeconds (toString r.blocked_until)
        pure true
      else pure true
    | none => pure false

/-- IpBlacklistService.isIpBlacklisted: the body with its catch, which logs
and fails open (returns false) on any error. -/
def isIpBlacklisted (cache : CacheOps) (db : DbOps) (ipAddress : String) (now : Int) : Bool :=
  match isIpBlacklistedBody cache db ipAddress now with
  | Except.ok b => b
  | Except.error _ => false

/-- IpBlacklistService.blacklistIp: cache write first (enforcement is
immediate), then the durable audit row; the catch logs and rethrows, so any
backend failure surfaces to the caller. -/
def blacklistIp (cache : CacheOps) (db : DbOps) (ipAddress : String) (durationMinutes : Int)
    (reason blockedBy : Option String) (now : Int) : Except String Unit := do
  let blockedUntil := now + durationMinutes * 60 * 1000
  let cacheKey := "blacklist:" ++ ipAddress
  let ttlSeconds := durationMinutes * 60
  let _ ← cache.setex cacheKey ttlSeconds (toString blockedUntil)
  let _ ← db.create
    { ip_address := ipAddress
      blocked_until := blockedUntil
      reason := reason
      blocked_by := blockedBy }
  pure ()

/-- IpBlacklistService.unblacklistIp: delete the cache entry, then mark the
open durable rows unblocked; the catch logs and rethrows. -/
def unblacklistIp (cache : CacheOps) (db : DbOps) (ipAddress : String)
    (unblockedBy : Option String) (now : Int) : Except String Unit := do
  let cacheKey := "blacklist:" ++ ipAddress
  let _ ← cache.del cacheKey
  let _ ← db.updateManyUnblock ipAddress now unblockedBy
  pure ()

/-- The try-block of IpBlacklistService.checkRateLimit: atomic increment, set
the window expiry on the first count, then read the TTL and answer
allowed = count less-or-equal maxRequests with the remaining budget. -/
def checkRateLimitBody (cache : CacheOps) (ipAddress : String) (maxRequests : Nat)
    (windowSeconds : Int) (now : Int) : Except String RateLimitResult := do
  let key := "ratelimit:" ++ ipAddress
  let current ← cache.incr key
  if current == 1 then
    let _ ← cache.expire key windowSeconds
    pure ()
  else pure ()
  let t ← cache.ttl key
  pure
    { allowed := decide (current ≤ maxRequests)
      remaining := ((maxRequests - current : Nat) : Int)
      resetTime := now + t * 1000 }

/-- IpBlacklistService.checkRateLimit: the body with its catch, which logs
and fails open (allowed with a full budget) on any error. -/
def checkRateLimit (cache : CacheOps) (ipAddress : String) (maxRequests : Nat)
    (windowSeconds : Int) (now : Int) : RateLimitResult :=
  match checkRateLimitBody cache ipAddress maxRequests windowSeconds now with
  | Except.ok r => r
  | Except.error _ =>
    { allowed := true, remaining := (maxRequests : Int), resetTime := now }

/-- IpBlacklistService.checkRateLimit as dispatched by CacheService to the
MemoryCacheService backend (the in-memory fallback): the same body with the
cache state threaded through and no failing backend call. -/
def checkRateLimitMem (cfg : CacheConfig) (st : MemCache) (ipAddress : String)
    (maxRequests : Nat) (windowSeconds : Int) (now : Int) : RateLimitResult × MemCache :=
  let key := "ratelimit:" ++ ipAddress
  let (current, st1) := MemoryCacheService.incr cfg st key now
  let st2 :=
    if current == 1 then MemoryCacheService.expire cfg st1 key windowSeconds now else st1
  let t := MemoryCacheService.ttl cfg st2 key now
  ({ allowed := decide (current ≤ maxRequests)
     remaining := ((maxRequests - current : Nat) : Int)
     resetTime := now + t * 1000 }, st2)

end IpBlacklistService

/-- Predicate of the keys that survive deleting every key id of R through
provider deleteKey (proof support for the archived-key cleanup). -/
def survivesRemoval (R : List EncryptionKey) (e : EncryptionKey) : Bool :=
  R.all (fun r => e.id != r.keyId)

/-- KeyInfo-level form of survivesRemoval. -/
def survivesRemovalInfo (R : List EncryptionKey) (ki : KeyInfo) : Bool :=
  R.all (fun r => ki.id != r.keyId)

/-- A well-formed UUID v7 used as the concrete tenant id of the witnesses. -/
def tenantA : String := "018f6d2f-1234-7abc-8def-0123456789ab"

/-- The empty backend state. -/
def s0 : ProviderState := { keys := [], secrets := [] }

/-- A Vault configuration with a token present. -/
def cfgA : VaultConfig :=
  { url := "http://vault:8200", token := some "vault-token", vaultNamespace := none }

/-- State with one ACTIVE key key-1, as created by ensureActiveKey on the
empty state. -/
def s1a : ProviderState := (SecurityService.ensureActiveKey s0 tenantA "key-1" 100).snd

/-- An archived KeyInfo with the given index as id and archive timestamp. -/
def archKI (i : Nat) : KeyInfo :=
  { id := "arch-" ++ toString i
    algorithm := "aes256-gcm96"
    keySize := 256
    status := KeyStatus.ARCHIVED
    createdAt := 0
    expiresAt := none
    rotationDate := none
    archivedAt := some (i * 1000) }

/-- State with four ARCHIVED keys and no ACTIVE key. -/
def s4arch : ProviderState :=
  { keys := [archKI 1, archKI 2, archKI 3, archKI 4], secrets := [] }

/-- State with one ACTIVE key and five ARCHIVED keys (for the cleanup
witness). -/
def s5arch : ProviderState :=
  { keys := [archKI 5, archKI 2, archKI 4,
             { id := "key-1"
               algorithm := "aes256-gcm96"
               keySize := 256
               status := KeyStatus.ACTIVE
               createdAt := 0
               expiresAt := none
               rotationDate := none
               archivedAt := none },
             archKI 1, archKI 3], secrets := [] }

/-- State holding a plaintext record whose stored value is the empty string. -/
def s3empty : ProviderState :=
  (SecurityService.storeSecret s0 tenantA "api-token" "" "sid-1" 5 none none).snd

/-- One checkRateLimit call against the memory backend with the rate limit of
the spec example (maxRequests 5, windowSeconds 60) for a fixed client IP. -/
def rlStep (st : MemCache) (now : Int) : RateLimitResult × MemCache :=
  IpBlacklistService.checkRateLimitMem { keyPrefix := none } st "203.0.113.7" 5 60 now

/-- Base instant of the rate-limit trace. -/
def rlT0 : Int := 1000000

/-- Memory-cache state after n checkRateLimit calls at the base instant. -/
def rlStates : Nat → MemCache
  | 0 => []
  | n + 1 => (rlStep (rlStates n) rlT0).snd

/-- A cache backend whose every operation fails (the backend is down). -/
def cacheDown : CacheOps :=
  { get := fun _ => Except.error "cache unavailable"
    setex := fun _ _ _ => Except.error "cache unavailable"
    del := fun _ => Except.error "cache unavailable"
    incr := fun _ => Except.error "cache unavailable"
    expire := fun _ _ => Except.error "cache unavailable"
    ttl := fun _ => Except.error "cache unavailable" }

/-- A durable store with no open blocks that accepts every write. -/
def dbIdle : DbOps :=
  { findFirstActive := fun _ _ => Except.ok none
    create := fun _ => Except.ok ()
    updateManyUnblock := fun _ _ _ => Except.ok () }

/-- Engine view of an archived fixture key. -/
def convArch (i : Nat) : EncryptionKey := SecurityService.convertToEncryptionKey (archKI i)

/-- Engine view of the ACTIVE fixture key of s5arch. -/
def kActive5 : EncryptionKey :=
  SecurityService.convertToEncryptionKey
    { id := "key-1"
      algorithm := "aes256-gcm96"
      keySize := 256
      status := KeyStatus.ACTIVE
      createdAt := 0
      expiresAt := none
      rotationDate := none
      archivedAt := none }

/-- The rotation call of the archived-key cleanup witness. -/
def rotS5 : Except String KeyRotationResponse × ProviderState :=
  SecurityService.rotateKeys s5arch tenantA false "key-9" 70

/-- The rotation response of the archived-key cleanup witness: the two oldest
archived keys are evicted and the three newest remain. -/
def respS5 : KeyRotationResponse :=
  { oldKeyId := "key-1"
    newKeyId := "key-9"
    rotationDate := 70
    archivedKeys := [convArch 5, convArch 4, convArch 3] }

/-- The concrete plaintext store response of the C10 witness. -/
def respStoreA : SecretResponse :=
  { id := "sid-1"
    tenantId := tenantA
    name := "api-token"
    value := some "tok"
    encryptedData := none
    keyId := none
    algorithm := none
    iv := none
    metadata :=
      { id := "sid-1"
        tenantId := "sid-1"
        name := "api-token"
        size := 3
        createdAt := 5
        updatedAt := 5
        expiresAt := none
        tags := none } }

theorem isPrefixOf_append_self (p l : List Char) : p.isPrefixOf (p ++ l) = true := by
  induction p with
  | nil => simp [List.isPrefixOf]
  | cons a as ih => simp [List.isPrefixOf, ih]

theorem removeFirstOcc_append (p l : List Char) : removeFirstOcc p (p ++ l) = l := by
  cases p with
  | nil => cases l <;> simp [removeFirstOcc, List.isPrefixOf]
  | cons a as =>
    show removeFirstOcc (a :: as) (a :: (as ++ l)) = l
    rw [removeFirstOcc]
    rw [show (a :: as).isPrefixOf (a :: (as ++ l)) = true from isPrefixOf_append_self (a :: as) l]
    simp [List.drop_left]

theorem jsReplaceFirst_append (pre s : String) : jsReplaceFirst (pre ++ s) pre = s := by
  obtain ⟨pl⟩ := pre
  obtain ⟨sl⟩ := s
  show String.mk (removeFirstOcc pl (pl ++ sl)) = String.mk sl
  rw [removeFirstOcc_append]

/-- C8: for every provider instance that is ready, every plaintext and every
key id, decrypting the result of encrypting through the Vault provider gives
back the plaintext exactly. -/
theorem claim_C8_vault_roundtrip (p : VaultProviderInstance) (data keyId : String)
    (h : VaultSecretsProvider.isReady p = true) :
    (VaultSecretsProvider.encrypt p data keyId).bind (VaultSecretsProvider.decrypt p)
      = Except.ok data := by
  simp [VaultSecretsProvider.encrypt, VaultSecretsProvider.decrypt, h, Except.bind,
    jsReplaceFirst_append]

theorem claim_C8_vault_roundtrip_witness :
    VaultSecretsProvider.isReady
      { isInitialized := true, status := ProviderStatus.HEALTHY, config := cfgA } = true
    ∧ (VaultSecretsProvider.encrypt
        { isInitialized := true, status := ProviderStatus.HEALTHY, config := cfgA }
        "s3cr3t" "key-1").bind
      (VaultSecretsProvider.decrypt
        { isInitialized := true, status := ProviderStatus.HEALTHY, config := cfgA })
      = Except.ok "s3cr3t" :=
  ⟨rfl, claim_C8_vault_roundtrip
    { isInitialized := true, status := ProviderStatus.HEALTHY, config := cfgA }
    "s3cr3t" "key-1" rfl⟩

/-- C2 counterexample: the selector value consul names no supported backend,
yet createProvider does not fail — getProviderTypeFromConfig silently defaults
it to VAULT and the factory constructs the Vault provider. -/
theorem claim_C2_counterexample :
    SecretsServiceFactory.createProvider (some "consul") cfgA
      = Except.ok { isInitialized := true, status := ProviderStatus.HEALTHY, config := cfgA } :=
  rfl

/-- C2 (amended): the four recognized-but-unimplemented provider types fail
the factory call immediately with a capability error, while a selector value
outside the recognized enum (and an unset selector) silently falls back to
constructing the default Vault provider. -/
theorem claim_C2_amended (cfg : VaultConfig) (sel : String)
    (hsel : sel ∉ secretsProviderTypeValues) :
    SecretsServiceFactory.createProvider (some "aws") cfg
      = Except.error "AWS Secrets Manager provider not implemented yet"
    ∧ SecretsServiceFactory.createProvider (some "azure") cfg
      = Except.error "Azure Key Vault provider not implemented yet"
    ∧ SecretsServiceFactory.createProvider (some "gcp") cfg
      = Except.error "GCP Secret Manager provider not implemented yet"
    ∧ SecretsServiceFactory.createProvider (some "local") cfg
      = Except.error "Local secrets provider not implemented yet"
    ∧ SecretsServiceFactory.createProvider (some sel) cfg
      = VaultSecretsProvider.initializeVault cfg
    ∧ SecretsServiceFactory.createProvider none cfg
      = VaultSecretsProvider.initializeVault cfg := by
  refine ⟨rfl, rfl, rfl, rfl, ?_, rfl⟩
  simp [SecretsServiceFactory.createProvider, SecretsServiceFactory.getProviderTypeFromConfig,
    hsel]

theorem claim_C2_amended_witness :
    "consul" ∉ secretsProviderTypeValues
    ∧ SecretsServiceFactory.createProvider (some "consul") cfgA
      = VaultSecretsProvider.initializeVault cfgA :=
  ⟨by decide, (claim_C2_amended cfgA "consul" (by decide)).2.2.2.2.1⟩

/-- C9: every exposed engine operation except rotateKeys rejects a malformed
tenant id with the UUID v7 validation error before reaching the provider,
but rotateKeys performs no validation: with the same malformed tenant id it
succeeds, derives the tenant paths and writes a key through the provider. -/
theorem claim_C9_rotateKeys_skips_validation :
    SecurityService.storeSecret s0 "not-a-uuid" "n" "v" "sid-1" 5 none none
      = (Except.error "Invalid UUID v7 format: not-a-uuid", s0)
    ∧ SecurityService.encryptAndStoreSecret s0 "not-a-uuid" "n" "v" "sid-1" "key-1" 5 none none
      = (Except.error "Invalid UUID v7 format: not-a-uuid", s0)
    ∧ SecurityService.getSecret s0 "not-a-uuid" "sid-1"
      = Except.error "Secret retrieval failed: Invalid UUID v7 format: not-a-uuid"
    ∧ SecurityService.decryptSecret s0 "not-a-uuid" "sid-1"
      = Except.error "Secret decryption failed: Invalid UUID v7 format: not-a-uuid"
    ∧ SecurityService.deleteSecret s0 "not-a-uuid" "sid-1"
      = (Except.error "Secret deletion failed: Invalid UUID v7 format: not-a-uuid", s0)
    ∧ SecurityService.listSecrets s0 "not-a-uuid"
      = Except.error "Secret listing failed: Invalid UUID v7 format: not-a-uuid"
    ∧ SecurityService.listKeys s0 "not-a-uuid"
      = Except.error "Key listing failed: Invalid UUID v7 format: not-a-uuid"
    ∧ SecurityService.rotateKeys s0 "not-a-uuid" true "key-1" 7
      = (Except.ok { oldKeyId := "", newKeyId := "key-1", rotationDate := 7, archivedKeys := [] },
         { keys := [{ id := "key-1"
                      algorithm := "aes256-gcm96"
                      keySize := 256
                      status := KeyStatus.ACTIVE
                      createdAt := 7
                      expiresAt := none
                      rotationDate := none
                      archivedAt := none }]
           secrets := [] }) := by
  decide

/-- C1: starting from a tenant whose only key key-1 is ACTIVE, rotateKeys
completes successfully, but because archiveKey is a TODO stub that never
demotes the old key, both key-1 and the new key-2 are ACTIVE afterwards: the
previously active key still has status ACTIVE and two keys are ACTIVE at
once. -/
theorem claim_C1_rotation_leaves_two_active_keys :
    SecurityService.getActiveKey s1a tenantA
      = some (SecurityService.convertToEncryptionKey
          { id := "key-1"
            algorithm := "aes256-gcm96"
            keySize := 256
            status := KeyStatus.ACTIVE
            createdAt := 100
            expiresAt := none
            rotationDate := none
            archivedAt := none })
    ∧ (SecurityService.rotateKeys s1a tenantA false "key-2" 200).fst
      = Except.ok { oldKeyId := "key-1", newKeyId := "key-2", rotationDate := 200, archivedKeys := [] }
    ∧ ((SecurityService.getAllKeys
          (SecurityService.rotateKeys s1a tenantA false "key-2" 200).snd tenantA).filter
        (fun k => k.status == KeyStatus.ACTIVE)).length = 2
    ∧ ((SecurityService.rotateKeys s1a tenantA false "key-2" 200).snd.keys.filter
        (fun k => k.id == "key-1" && k.status == KeyStatus.ACTIVE)).length = 1 := by
  decide

/-- C4 counterexample: a tenant whose key store holds four ARCHIVED keys and
no ACTIVE key: rotateKeys with force completes successfully, but the cleanup
only runs on the archive branch, so four ARCHIVED keys remain — more than the
cap of three. -/
theorem claim_C4_counterexample :
    (SecurityService.rotateKeys s4arch tenantA true "key-9" 50).fst
      = Except.ok { oldKeyId := "", newKeyId := "key-9", rotationDate := 50, archivedKeys := [] }
    ∧ ¬ ((SecurityService.getArchivedKeys
          (SecurityService.rotateKeys s4arch tenantA true "key-9" 50).snd tenantA).length
        ≤ SecurityService.MAX_ARCHIVED_KEYS) := by
  decide

/-- C6: the rate-limit scenario of the spec against the in-memory cache
backend (maxRequests 5, windowSeconds 60): the first call is allowed and the
sixth call within the window is rejected, but after the window has elapsed
the next call is still rejected — MemoryCacheService.incr rewrote the counter
without a TTL, erasing the window expiry, so the counter never resets. -/
theorem claim_C6_memory_counter_never_resets :
    (rlStep (rlStates 0) rlT0).fst.allowed = true
    ∧ (rlStep (rlStates 5) rlT0).fst.allowed = false
    ∧ memLookup (rlStates 6) "ratelimit:203.0.113.7"
      = some { value := "6", expiry := none }
    ∧ (rlStep (rlStates 6) (rlT0 + 61000)).fst.allowed = false := by
  decide

/-- C7 counterexample: blacklistIp with a failing cache backend surfaces the
backend error to the caller instead of swallowing it into a fail-open
result. -/
theorem claim_C7_counterexample :
    IpBlacklistService.blacklistIp cacheDown dbIdle "203.0.113.9" 10 none none 0
      = Except.error "cache unavailable" :=
  rfl

/-- C7 (amended): infrastructure failures in the two read/check operations
are swallowed into fail-open results — isIpBlacklisted answers false and
checkRateLimit answers allowed with a full budget — while the two write
operations blacklistIp and unblacklistIp log and rethrow the failure to the
caller. -/
theorem claim_C7_amended (cache : CacheOps) (db : DbOps) (ip : String) (now : Int)
    (maxRequests : Nat) (windowSeconds durationMinutes : Int)
    (reason blockedBy unblockedBy : Option String) (e : String) :
    (cache.get ("blacklist:" ++ ip) = Except.error e →
      IpBlacklistService.isIpBlacklisted cache db ip now = false)
    ∧ (cache.incr ("ratelimit:" ++ ip) = Except.error e →
      IpBlacklistService.checkRateLimit cache ip maxRequests windowSeconds now
        = { allowed := true, remaining := (maxRequests : Int), resetTime := now })
    ∧ (cache.setex ("blacklist:" ++ ip) (durationMinutes * 60)
          (toString (now + durationMinutes * 60 * 1000)) = Except.error e →
      IpBlacklistService.blacklistIp cache db ip durationMinutes reason blockedBy now
        = Except.error e)
    ∧ (cache.del ("blacklist:" ++ ip) = Except.error e →
      IpBlacklistService.unblacklistIp cache db ip unblockedBy now = Except.error e) := by
  refine ⟨?_, ?_, ?_, ?_⟩
  · intro h
    simp only [IpBlacklistService.isIpBlacklisted, IpBlacklistService.isIpBlacklistedBody, h]
    rfl
  · intro h
    simp only [IpBlacklistService.checkRateLimit, IpBlacklistService.checkRateLimitBody, h]
    rfl
  · intro h
    simp only [IpBlacklistService.blacklistIp, h]
    rfl
  · intro h
    simp only [IpBlacklistService.unblacklistIp, h]
    rfl

theorem claim_C7_amended_witness :
    IpBlacklistService.isIpBlacklisted cacheDown dbIdle "198.51.100.1" 0 = false
    ∧ IpBlacklistService.checkRateLimit cacheDown "198.51.100.1" 5 60 0
      = { allowed := true, remaining := 5, resetTime := 0 }
    ∧ IpBlacklistService.blacklistIp cacheDown dbIdle "198.51.100.1" 10 none none 0
      = Except.error "cache unavailable"
    ∧ IpBlacklistService.unblacklistIp cacheDown dbIdle "198.51.100.1" none 0
      = Except.error "cache unavailable" := by
  have h := claim_C7_amended cacheDown dbIdle "198.51.100.1" 0 5 60 10 none none none
    "cache unavailable"
  exact ⟨h.1 rfl, h.2.1 rfl, h.2.2.1 rfl, h.2.2.2 rfl⟩

/-- C5: on a tenant with no ACTIVE key, rotateKeys without force fails with
the no-active-key error and leaves the key store untouched (no key is
created), while rotateKeys with force succeeds, answers the new key id and
stores a new ACTIVE key for the tenant. -/
theorem claim_C5_rotation_without_active_key (s : ProviderState) (tenantId newKeyId : String)
    (now : Nat) (h : SecurityService.getActiveKey s tenantId = none) :
    SecurityService.rotateKeys s tenantId false newKeyId now
      = (Except.error "Key rotation failed: No active key found for rotation", s)
    ∧ (SecurityService.rotateKeys s tenantId true newKeyId now).fst
      = Except.ok { oldKeyId := "", newKeyId := newKeyId, rotationDate := now, archivedKeys := [] }
    ∧ (SecurityService.rotateKeys s tenantId true newKeyId now).snd.keys
      = s.keys ++ [{ id := newKeyId
                     algorithm := "aes256-gcm96"
                     keySize := 256
                     status := KeyStatus.ACTIVE
                     createdAt := now
                     expiresAt := none
                     rotationDate := none
                     archivedAt := none }] := by
  refine ⟨?_, ?_, ?_⟩ <;>
    simp [SecurityService.rotateKeys, h, SecurityService.createEncryptionKey, Provider.createKey]

theorem claim_C5_rotation_without_active_key_witness :
    SecurityService.getActiveKey s0 tenantA = none
    ∧ SecurityService.rotateKeys s0 tenantA false "key-1" 5
      = (Except.error "Key rotation failed: No active key found for rotation", s0) :=
  ⟨by decide, (claim_C5_rotation_without_active_key s0 tenantA "key-1" 5 (by decide)).1⟩

theorem encPrefix_ne_empty (v : String) : ("encrypted_" ++ v) ≠ "" := by
  intro h
  have hl := congrArg String.length h
  simp [String.length_append] at hl
  exact absurd hl.1 (by decide)

/-- C3 counterexample: a stored record that holds the plaintext value of the
empty string is not returned verbatim: the truthiness check on secret.value
skips the plaintext branch, and both getSecret and decryptSecret report the
record as not found. -/
theorem claim_C3_counterexample :
    (SecurityService.storeSecret s0 tenantA "api-token" "" "sid-1" 5 none none).fst.map
      (fun r => r.value) = Except.ok (some "")
    ∧ SecurityService.decryptSecret s3empty tenantA "sid-1"
      = Except.error "Secret decryption failed: Secret retrieval failed: Secret not found: sid-1" := by
  decide

/-- C3 (amended): decryptSecret returns the plaintext value verbatim when the
record holds a non-empty plaintext value (a record whose stored value is the
empty string is instead reported as not found, by JavaScript truthiness); when
the record holds encrypted fields it decrypts via the provider using the keyId
stored in the record itself, not the tenant's current active key, so a secret
encrypted under key keyId1 still decrypts to the original value after a
rotation that replaced the active key with keyId2. -/
theorem claim_C3_amended (tenantId name value secretId keyId1 keyId2 : String)
    (n1 n2 n3 : Nat)
    (ht : UUID7.isValid tenantId = true) (hv : value ≠ "") (hk : keyId1 ≠ "") :
    SecurityService.decryptSecret
      ((SecurityService.storeSecret s0 tenantId name value secretId n1 none none).snd)
      tenantId secretId = Except.ok value
    ∧ (SecurityService.rotateKeys
        ((SecurityService.encryptAndStoreSecret s0 tenantId name value secretId keyId1 n2
          none none).snd)
        tenantId false keyId2 n3).fst
      = Except.ok { oldKeyId := keyId1, newKeyId := keyId2, rotationDate := n3, archivedKeys := [] }
    ∧ ((SecurityService.getSecret
        (SecurityService.rotateKeys
          ((SecurityService.encryptAndStoreSecret s0 tenantId name value secretId keyId1 n2
            none none).snd)
          tenantId false keyId2 n3).snd
        tenantId secretId).map (fun r => r.keyId)) = Except.ok (some keyId1)
    ∧ SecurityService.decryptSecret
        (SecurityService.rotateKeys
          ((SecurityService.encryptAndStoreSecret s0 tenantId name value secretId keyId1 n2
            none none).snd)
          tenantId false keyId2 n3).snd
        tenantId secretId = Except.ok value := by
  refine ⟨?_, ?_, ?_, ?_⟩ <;>
  simp [SecurityService.encryptAndStoreSecret, SecurityService.storeSecret,
    SecurityService.rotateKeys, s0,
    SecurityService.validateUUID7, ht, SecurityService.ensureActiveKey,
    SecurityService.getActiveKey, SecurityService.getAllKeys, SecurityService.getArchivedKeys,
    SecurityService.createEncryptionKey, SecurityService.archiveKey,
    SecurityService.cleanupArchivedKeys, SecurityService.keysToRemove,
    SecurityService.convertToEncryptionKey, SecurityService.MAX_ARCHIVED_KEYS,
    SecurityService.convertToVaultMetadata, SecurityService.getSecret,
    SecurityService.decryptSecret, jsTruthyOptStr, hv, hk, encPrefix_ne_empty,
    Provider.createKey, Provider.listKeys, Provider.setSecret, Provider.getSecret,
    Provider.encrypt, Provider.decrypt, jsReplaceFirst_append, Except.map,
    VaultSecretsProvider.getTenantPaths, List.find?]

theorem claim_C3_amended_witness :
    UUID7.isValid tenantA = true
    ∧ "s3cr3t" ≠ ""
    ∧ "key-1" ≠ ""
    ∧ SecurityService.decryptSecret
        ((SecurityService.storeSecret s0 tenantA "db-pass" "s3cr3t" "sid-9" 5 none none).snd)
        tenantA "sid-9" = Except.ok "s3cr3t" :=
  ⟨by decide, by decide, by decide,
    (claim_C3_amended tenantA "db-pass" "s3cr3t" "sid-9" "key-1" "key-2" 5 10 20
      (by decide) (by decide) (by decide)).1⟩

/-- C10: every secret response of storeSecret, encryptAndStoreSecret,
getSecret and every entry of listSecrets carries a metadata whose tenantId
field equals the metadata record's own id (the secret id), as
convertToVaultMetadata copies metadata.id into tenantId — not the
caller-supplied tenant id. -/
theorem claim_C10_metadata_tenantId (s : ProviderState)
    (tenantId name value secretId keyId : String)
    (now : Nat) (expiresAt : Option Nat) (tags : Option (List (String × String))) :
    (∀ r s1, SecurityService.storeSecret s tenantId name value secretId now expiresAt tags
        = (Except.ok r, s1) → r.metadata.tenantId = r.id)
    ∧ (∀ r s1, SecurityService.encryptAndStoreSecret s tenantId name value secretId keyId now
        expiresAt tags = (Except.ok r, s1) → r.metadata.tenantId = r.id)
    ∧ (∀ r, SecurityService.getSecret s tenantId secretId = Except.ok r →
        r.metadata.tenantId = r.metadata.id)
    ∧ (∀ resp, SecurityService.listSecrets s tenantId = Except.ok resp →
        ∀ m ∈ resp.secrets, m.tenantId = m.id) := by
  by_cases hval : UUID7.isValid tenantId
  · refine ⟨?_, ?_, ?_, ?_⟩
    · intro r s1 h
      simp [SecurityService.storeSecret, SecurityService.validateUUID7, hval,
        SecurityService.convertToVaultMetadata] at h
      obtain ⟨h1, -⟩ := h
      subst h1
      rfl
    · intro r s1 h
      simp [SecurityService.encryptAndStoreSecret, SecurityService.validateUUID7, hval,
        SecurityService.convertToVaultMetadata] at h
      obtain ⟨h1, -⟩ := h
      subst h1
      rfl
    · intro r h
      simp [SecurityService.getSecret, SecurityService.validateUUID7, hval] at h
      rcases hsec : Provider.getSecret s
          ((VaultSecretsProvider.getTenantPaths tenantId).secrets ++ "/" ++ secretId) with e | d
      · rw [hsec] at h
        simp at h
      · rw [hsec] at h
        by_cases htr : jsTruthyOptStr d.value
        · simp [htr, SecurityService.convertToVaultMetadata] at h
          subst h
          rfl
        · simp [htr] at h
          rcases hed : d.encryptedData with - | ed
          · rw [hed] at h; simp at h
          · rw [hed] at h
            simp [SecurityService.convertToVaultMetadata] at h
            subst h
            rfl
    · intro resp h
      simp [SecurityService.listSecrets, SecurityService.validateUUID7, hval] at h
      intro m hm
      subst h
      simp at hm
      obtain ⟨x, -, hx⟩ := hm
      subst hx
      rfl
  · refine ⟨?_, ?_, ?_, ?_⟩
    · intro r s1 h
      simp [SecurityService.storeSecret, SecurityService.validateUUID7, hval] at h
    · intro r s1 h
      simp [SecurityService.encryptAndStoreSecret, SecurityService.validateUUID7, hval] at h
    · intro r h
      simp [SecurityService.getSecret, SecurityService.validateUUID7, hval] at h
    · intro resp h
      simp [SecurityService.listSecrets, SecurityService.validateUUID7, hval] at h

theorem claim_C10_metadata_tenantId_witness :
    respStoreA.metadata.tenantId = respStoreA.id
    ∧ respStoreA.metadata.tenantId = "sid-1"
    ∧ respStoreA.metadata.tenantId ≠ tenantA := by
  refine ⟨?_, by decide, by decide⟩
  exact (claim_C10_metadata_tenantId s0 tenantA "api-token" "tok" "sid-1" "key-1" 5
      none none).1
    respStoreA
    (SecurityService.storeSecret s0 tenantA "api-token" "tok" "sid-1" 5 none none).snd
    (by decide)

theorem foldl_deleteKey_keys (R : List EncryptionKey) (st : ProviderState) :
    (R.foldl (fun acc k => Provider.deleteKey acc k.keyId) st).keys
      = st.keys.filter (survivesRemovalInfo R) := by
  induction R generalizing st with
  | nil => exact (List.filter_eq_self.mpr (fun a _ => rfl)).symm
  | cons r rs ih =>
    rw [List.foldl_cons, ih]
    show (Provider.deleteKey st r.keyId).keys.filter (survivesRemovalInfo rs) = _
    rw [show (Provider.deleteKey st r.keyId).keys
        = st.keys.filter (fun k => k.id != r.keyId) from rfl]
    rw [List.filter_filter]
    apply List.filter_congr
    intro a _
    simp [survivesRemovalInfo, Bool.and_comm]

theorem keyId_eq_id_of_mem_getAllKeys (st : ProviderState) (t : String) (e : EncryptionKey)
    (h : e ∈ SecurityService.getAllKeys st t) : e.keyId = e.id := by
  simp [SecurityService.getAllKeys, Provider.listKeys] at h
  obtain ⟨ki, -, hki⟩ := h
  subst hki
  rfl

theorem mem_getAllKeys_of_mem_getArchivedKeys (st : ProviderState) (t : String)
    (e : EncryptionKey) (h : e ∈ SecurityService.getArchivedKeys st t) :
    e ∈ SecurityService.getAllKeys st t :=
  List.mem_of_mem_filter h

theorem getArchived_after_fold (st : ProviderState) (t : String) (R : List EncryptionKey) :
    SecurityService.getArchivedKeys
        (R.foldl (fun acc k => Provider.deleteKey acc k.keyId) st) t
      = (SecurityService.getArchivedKeys st t).filter (survivesRemoval R) := by
  unfold SecurityService.getArchivedKeys SecurityService.getAllKeys Provider.listKeys
  rw [foldl_deleteKey_keys]
  rw [List.filter_map, List.filter_map, List.filter_filter, List.filter_map, List.filter_filter]
  congr 1
  apply List.filter_congr
  intro a _
  show ((a.status == KeyStatus.ARCHIVED) && survivesRemovalInfo R a)
      = (survivesRemoval R (SecurityService.convertToEncryptionKey a)
        && (a.status == KeyStatus.ARCHIVED))
  rw [Bool.and_comm]
  rfl

theorem getArchived_createEncryptionKey (s : ProviderState) (t kid : String) (now : Nat) :
    SecurityService.getArchivedKeys (SecurityService.createEncryptionKey s t kid now).snd t
      = SecurityService.getArchivedKeys s t := by
  simp [SecurityService.createEncryptionKey, Provider.createKey, SecurityService.getArchivedKeys,
    SecurityService.getAllKeys, Provider.listKeys, List.filter_append,
    SecurityService.convertToEncryptionKey]

theorem survivesRemoval_self_false (R : List EncryptionKey) (d : EncryptionKey)
    (hd : d ∈ R) (hid : d.keyId = d.id) : survivesRemoval R d = false := by
  cases hsurv : survivesRemoval R d with
  | false => rfl
  | true =>
    have := (List.all_eq_true.mp hsurv) d hd
    rw [hid] at this
    simp at this

/-- C4 (amended): after a rotateKeys call in which an old ACTIVE key existed
(so the archive/cleanup branch runs), the tenant's ARCHIVED keys number at
most MAX_ARCHIVED_KEYS = 3, and the keys the cleanup deletes through provider
deleteKey are exactly the keysToRemove list, which is ordered by ascending
archivedAt (oldest first) and every deleted key is at least as old as every
surviving archived key.  (When no ACTIVE key existed and force is set, the
source skips the cleanup entirely and pre-existing archived keys beyond the
cap survive — the counterexample.)  The archivedAt-present hypothesis scopes
the statement to archived keys carrying a timestamp, as the data model
requires; the source comparator would produce NaN otherwise. -/
theorem claim_C4_amended (s : ProviderState) (tenantId newKeyId : String) (force : Bool)
    (now : Nat) (k : EncryptionKey) (resp : KeyRotationResponse) (s2 : ProviderState)
    (hactive : SecurityService.getActiveKey s tenantId = some k)
    (_harch : ∀ a ∈ SecurityService.getArchivedKeys s tenantId, a.archivedAt.isSome)
    (hrot : SecurityService.rotateKeys s tenantId force newKeyId now = (Except.ok resp, s2)) :
    (SecurityService.getArchivedKeys s2 tenantId).length ≤ SecurityService.MAX_ARCHIVED_KEYS
    ∧ (SecurityService.keysToRemove (SecurityService.getArchivedKeys s tenantId)).Pairwise
        SecurityService.keyAgeLe
    ∧ ∀ d ∈ SecurityService.keysToRemove (SecurityService.getArchivedKeys s tenantId),
        ∀ a ∈ SecurityService.getArchivedKeys s2 tenantId, SecurityService.keyAgeLe d a := by
  simp only [SecurityService.rotateKeys, hactive] at hrot
  have hs2 := congrArg Prod.snd hrot
  simp only at hs2
  subst hs2
  set A := SecurityService.getArchivedKeys s tenantId with hAdef
  set X := (SecurityService.createEncryptionKey s tenantId newKeyId now).2 with hXdef
  have hA1 : SecurityService.getArchivedKeys X tenantId = A :=
    getArchived_createEncryptionKey s tenantId newKeyId now
  have hs2eq : SecurityService.archiveKey X tenantId k.keyId
      = (SecurityService.keysToRemove A).foldl
          (fun acc kk => Provider.deleteKey acc kk.keyId) X := by
    rw [SecurityService.archiveKey, SecurityService.cleanupArchivedKeys, hA1]
  rw [hs2eq]
  set R := SecurityService.keysToRemove A with hRdef
  have harch2 : SecurityService.getArchivedKeys
      (R.foldl (fun acc kk => Provider.deleteKey acc kk.keyId) X) tenantId
      = A.filter (survivesRemoval R) := by
    rw [getArchived_after_fold, hA1]
  rw [harch2]
  by_cases hlen : A.length > SecurityService.MAX_ARCHIVED_KEYS
  · have hR : R = (List.insertionSort SecurityService.keyAgeLe A).take
        (A.length - SecurityService.MAX_ARCHIVED_KEYS) := by
      rw [hRdef, SecurityService.keysToRemove, if_pos hlen]
    set sorted := List.insertionSort SecurityService.keyAgeLe A with hsorteddef
    set m := A.length - SecurityService.MAX_ARCHIVED_KEYS with hmdef
    have hperm : sorted.Perm A := List.perm_insertionSort SecurityService.keyAgeLe A
    have hsorted : sorted.Pairwise SecurityService.keyAgeLe :=
      List.sorted_insertionSort SecurityService.keyAgeLe A
    have hRsub : R.Sublist sorted := hR ▸ List.take_sublist m sorted
    have hself : ∀ d ∈ R, survivesRemoval R d = false := by
      intro d hd
      have hdA : d ∈ A := hperm.mem_iff.mp (hRsub.subset hd)
      exact survivesRemoval_self_false R d hd
        (keyId_eq_id_of_mem_getAllKeys s tenantId d
          (mem_getAllKeys_of_mem_getArchivedKeys s tenantId d hdA))
    have hfR : R.filter (survivesRemoval R) = [] :=
      List.filter_eq_nil_iff.mpr (fun d hd => by rw [hself d hd]; exact Bool.false_ne_true)
    have hsplit : R ++ sorted.drop m = sorted := by
      rw [hR]
      exact List.take_append_drop m sorted
    have hpermf : (A.filter (survivesRemoval R)).Perm (sorted.filter (survivesRemoval R)) :=
      List.Perm.filter (survivesRemoval R) hperm.symm
    refine ⟨?_, ?_, ?_⟩
    · rw [hpermf.length_eq, ← hsplit, List.filter_append, hfR, List.nil_append]
      calc ((sorted.drop m).filter (survivesRemoval R)).length
          ≤ (sorted.drop m).length := List.length_filter_le _ _
        _ = sorted.length - m := List.length_drop m sorted
        _ ≤ SecurityService.MAX_ARCHIVED_KEYS := by
            rw [hperm.length_eq]
            omega
    · exact List.Pairwise.sublist hRsub hsorted
    · intro d hd a ha
      have haf : a ∈ sorted.filter (survivesRemoval R) := hpermf.mem_iff.mp ha
      rw [← hsplit, List.filter_append] at haf
      rcases List.mem_append.mp haf with hin | hin
      · rw [hfR] at hin
        exact absurd hin (List.not_mem_nil a)
      · have hadrop : a ∈ sorted.drop m := List.mem_of_mem_filter hin
        have hpw : (R ++ sorted.drop m).Pairwise SecurityService.keyAgeLe := by
          rw [hsplit]
          exact hsorted
        exact (List.pairwise_append.mp hpw).2.2 d hd a hadrop
  · have hR : R = [] := by rw [hRdef, SecurityService.keysToRemove, if_neg hlen]
    have hfilter : A.filter (survivesRemoval R) = A := by
      rw [hR]
      exact List.filter_eq_self.mpr (fun a _ => rfl)
    rw [hfilter, hR]
    refine ⟨by omega, List.Pairwise.nil, ?_⟩
    intro d hd
    exact absurd hd (List.not_mem_nil d)

theorem claim_C4_amended_witness :
    (SecurityService.getArchivedKeys rotS5.snd tenantA).length
      ≤ SecurityService.MAX_ARCHIVED_KEYS
    ∧ SecurityService.keysToRemove (SecurityService.getArchivedKeys s5arch tenantA)
      = [convArch 1, convArch 2] := by
  constructor
  · exact (claim_C4_amended s5arch tenantA "key-9" false 70 kActive5 respS5 rotS5.snd
      (by decide) (by decide) (by decide)).1
  · decide

end ChalkOps
